import Mathlib

/-!
Verification development for the QWED credential subsystem
(`src/issuer/qwed_certificate_issuer.py`, `src/verifier/qwed_certificate_verifier.py`).

Python dictionaries are embedded as association lists of `String × Json`;
Python values reachable in the credential flow are embedded as `Json`.
Operations that can raise in Python are embedded into `Except String`,
where the error string names the Python exception class; the
`try/except` wrappers of the source become catches of that monad.
External library calls (hashlib, the RSA signing primitive, the network,
the JSON parser of `requests`) are parameters of the embedding: the code
under verification never inspects their output values.
-/

/-- A Python/JSON value as it occurs in the credential data flow. -/
inductive Json where
  | null
  | bool (b : Bool)
  | int (n : Int)
  | str (s : String)
  | arr (xs : List Json)
  | obj (fields : List (String × Json))

namespace Json

mutual

/-- Python `repr` of a value (strings quoted, containers rendered
Python-style).  String escaping inside `repr` is not modelled; no code
path under verification feeds a container or a quoted string into a
message. -/
def pyRepr : Json → String
  | .null => "None"
  | .bool true => "True"
  | .bool false => "False"
  | .int n => toString n
  | .str s => "'" ++ s ++ "'"
  | .arr xs => "[" ++ String.intercalate ", " (pyReprList xs) ++ "]"
  | .obj l => "\x7b" ++ String.intercalate ", " (pyReprFields l) ++ "\x7d"

/-- Python `repr` of each element of a list. -/
def pyReprList : List Json → List String
  | [] => []
  | x :: xs => pyRepr x :: pyReprList xs

/-- Python `repr` of each `key: value` entry of a dict. -/
def pyReprFields : List (String × Json) → List String
  | [] => []
  | (k, v) :: l => ("'" ++ k ++ "': " ++ pyRepr v) :: pyReprFields l

end

end Json

/-- Python `str()` of a value, as used by f-string interpolation:
identity on strings, `repr` on everything else. -/
def pyStr : Json → String
  | .str s => s
  | x => x.pyRepr

/-- Lookup in a Python dict (`d[k]` when the key is present, else `none`). -/
def getField (l : List (String × Json)) (k : String) : Option Json :=
  (l.find? (fun p => p.1 == k)).map (fun p => p.2)

/-- Python `d.get(k)`: the value, or `None` when the key is absent. -/
def pyDictGet (l : List (String × Json)) (k : String) : Json :=
  (getField l k).getD .null

/-- Python `d.get(k, default)`. -/
def pyDictGetD (l : List (String × Json)) (k : String) (d : Json) : Json :=
  (getField l k).getD d

/-- Python `k in d` for a dict. -/
def hasField (l : List (String × Json)) (k : String) : Bool :=
  l.any (fun p => p.1 == k)

/-- Replace the value of every binding of a key, keeping positions. -/
def replaceField (l : List (String × Json)) (k : String) (v : Json) :
    List (String × Json) :=
  match l with
  | [] => []
  | p :: t =>
      (if p.1 == k then (k, v) else p) :: replaceField t k v

/-- Python `d[k] = v`: replace the value in place when the key is
present, otherwise append the binding at the end (CPython dict insertion
order). -/
def setField (l : List (String × Json)) (k : String) (v : Json) :
    List (String × Json) :=
  if hasField l k then replaceField l k v else l ++ [(k, v)]

/-- Python `d.pop(k)` / `del d[k]`: every binding of the key removed. -/
def removeField (l : List (String × Json)) (k : String) :
    List (String × Json) :=
  l.filter (fun p => p.1 != k)

/-- Python `x == s` for a Python string `s`: true exactly when `x` is an
equal string (no other embedded value compares equal to a string). -/
def pyEqStr (x : Json) (s : String) : Bool :=
  match x with
  | .str t => t == s
  | _ => false

/-- Python `x == n` for an integer `n`: integers compare by value, and a
bool compares as 0 or 1; no other embedded value equals an integer. -/
def pyEqInt (x : Json) (n : Int) : Bool :=
  match x with
  | .int m => m == n
  | .bool b => (if b then (1 : Int) else 0) == n
  | _ => false

/-- Whether one string occurs as a contiguous substring of another
(Python `needle in s` on strings). -/
def strContains (s needle : String) : Bool :=
  (List.range (s.length + 1)).any
    (fun i => needle.data.isPrefixOf (s.data.drop i))

/-- Python `needle in x`: membership for a list, substring for a string,
key membership for a dict; a `TypeError` for non-iterable values. -/
def pyContains (needle : String) (x : Json) : Except String Bool :=
  match x with
  | .arr xs => .ok (xs.any (fun e => pyEqStr e needle))
  | .str s => .ok (strContains s needle)
  | .obj l => .ok (hasField l needle)
  | _ => .error "TypeError: argument is not iterable"

/-- Python `x.get(k)` on an arbitrary value: succeeds only when `x` is a
dict, otherwise raises `AttributeError`. -/
def pyGet (x : Json) (k : String) : Except String Json :=
  match x with
  | .obj l => .ok (pyDictGet l k)
  | _ => .error "AttributeError: value has no attribute get"

/-! ## Canonical serialization

`json.dumps(credential, separators=(',', ':'), sort_keys=True)` from
`QWEDCertificateIssuer._sign_credential` (source line 127): compact
separators, keys sorted lexicographically at every nesting level,
`ensure_ascii` escaping of strings. -/

/-- One lower-case hexadecimal digit. -/
def hexDigit (n : Nat) : Char :=
  if n < 10 then Char.ofNat (48 + n) else Char.ofNat (87 + n % 16)

/-- Four lower-case hexadecimal digits, as in a `\uXXXX` escape. -/
def u16hex (n : Nat) : String :=
  String.mk [hexDigit (n / 4096 % 16), hexDigit (n / 256 % 16),
             hexDigit (n / 16 % 16), hexDigit (n % 16)]

/-- `json.dumps` escaping of one character with `ensure_ascii=True`:
quotes and backslashes escaped, the named control escapes, `\uXXXX` for
the other control characters and all non-ASCII characters (surrogate
pairs above the basic plane). -/
def jsonEscapeChar (c : Char) : String :=
  if c = '"' then "\\\""
  else if c = '\\' then "\\\\"
  else if c = '\n' then "\\n"
  else if c = '\t' then "\\t"
  else if c = '\r' then "\\r"
  else if c.toNat = 8 then "\\b"
  else if c.toNat = 12 then "\\f"
  else if c.toNat < 32 then "\\u" ++ u16hex c.toNat
  else if c.toNat < 127 then String.singleton c
  else if c.toNat < 65536 then "\\u" ++ u16hex c.toNat
  else
    "\\u" ++ u16hex (55296 + (c.toNat - 65536) / 1024) ++
    "\\u" ++ u16hex (56320 + (c.toNat - 65536) % 1024)

/-- A JSON string literal: `"` + escaped characters + `"`. -/
def jsonQuote (s : String) : String :=
  "\"" ++ String.join (s.data.map jsonEscapeChar) ++ "\""

/-- The comparison `sort_keys=True` sorts by: the key of the entry,
using the code-point order on strings. -/
def keyLe (a b : String × String) : Bool := a.1 ≤ b.1

/-- Sort serialized dict entries by key (CPython `sorted(d.items())`,
stable merge sort). -/
def sortPairs (l : List (String × String)) : List (String × String) :=
  l.mergeSort keyLe

mutual

/-- `json.dumps(x, separators=(',', ':'), sort_keys=True)`.  Entries of
an object are serialized and then sorted by key; because the sort is
stable and compares keys only, this produces the same text as CPython's
sort-then-serialize. -/
def dumps : Json → String
  | .null => "null"
  | .bool true => "true"
  | .bool false => "false"
  | .int n => toString n
  | .str s => jsonQuote s
  | .arr xs => "[" ++ String.intercalate "," (dumpsList xs) ++ "]"
  | .obj l =>
      "\x7b" ++
      String.intercalate ","
        ((sortPairs (dumpsFields l)).map (fun p => jsonQuote p.1 ++ ":" ++ p.2)) ++
      "\x7d"

/-- Serialization of each element of an array. -/
def dumpsList : List Json → List String
  | [] => []
  | x :: xs => dumps x :: dumpsList xs

/-- Serialization of the value of each entry of an object, the keys kept. -/
def dumpsFields : List (String × Json) → List (String × String)
  | [] => []
  | (k, v) :: l => (k, dumps v) :: dumpsFields l

end

/-! ## External cryptographic primitives

The issuer calls `hashlib.sha256(...).hexdigest()` and
`private_key.sign(..., PKCS1v15, SHA256)`; both are library code outside
this repository, and no code under verification inspects their output.
They are parameters of the embedding, gathered in one structure. -/

/-- An RSA private key as the `cryptography` library exposes it: the
public numbers `n`, `e` and the private exponent `d`. -/
structure RSAPrivateKey where
  n : Nat
  e : Nat
  d : Nat

/-- The public half of an RSA private key (`private_key.public_key()`),
carrying the public numbers only. -/
structure RSAPublicKey where
  n : Nat
  e : Nat

/-- `private_key.public_key()`. -/
def publicKeyOf (k : RSAPrivateKey) : RSAPublicKey := ⟨k.n, k.e⟩

/-- The external library functions the issuer calls. -/
structure CryptoPrims where
  /-- `hashlib.sha256(input).hexdigest()` on a UTF-8 string. -/
  sha256hex : String → String
  /-- `private_key.sign(msg, PKCS1v15, SHA256)`: the signature bytes, a
  function of the private key and the message. -/
  rsaSignBytes : RSAPrivateKey → String → List Nat

/-! ## base64url (used for the signature and the JWK integers) -/

/-- The base64url alphabet: `A-Z`, `a-z`, `0-9`, `-`, `_`. -/
def b64urlChar (n : Nat) : Char :=
  if n < 26 then Char.ofNat (65 + n)
  else if n < 52 then Char.ofNat (97 + (n - 26))
  else if n < 62 then Char.ofNat (48 + (n - 52))
  else if n = 62 then '-'
  else '_'

/-- base64 encoding of a block of at most three bytes, with `=` padding. -/
def b64Group : List Nat → String
  | [a] =>
      String.mk [b64urlChar (a / 4 % 64), b64urlChar (a % 4 * 16)] ++ "=="
  | [a, b] =>
      String.mk [b64urlChar (a / 4 % 64), b64urlChar ((a % 4) * 16 + b / 16 % 16),
                 b64urlChar (b % 16 * 4)] ++ "="
  | a :: b :: c :: _ =>
      String.mk [b64urlChar (a / 4 % 64), b64urlChar ((a % 4) * 16 + b / 16 % 16),
                 b64urlChar ((b % 16) * 4 + c / 64 % 4), b64urlChar (c % 64)]
  | [] => ""

/-- base64url of a byte string, with padding. -/
def b64urlPadded : List Nat → String
  | [] => ""
  | a :: rest =>
      match rest with
      | [] => b64Group [a]
      | b :: rest' =>
        match rest' with
        | [] => b64Group [a, b]
        | c :: rest'' => b64Group [a, b, c] ++ b64urlPadded rest''

/-- `base64.urlsafe_b64encode(bytes).decode('ascii').rstrip('=')`. -/
def b64url (bytes : List Nat) : String :=
  String.mk (((b64urlPadded bytes).data).filter (fun c => c ≠ '='))

/-- Python `num.bit_length()`: 0 for 0, else the position of the highest
set bit plus one. -/
def bitLength (num : Nat) : Nat :=
  if num = 0 then 0 else Nat.log2 num + 1

/-- The minimal big-endian byte representation of a natural number
(`num.to_bytes((num.bit_length() + 7) // 8, 'big')`). -/
def bigEndianBytes (num : Nat) : List Nat :=
  (List.range ((bitLength num + 7) / 8)).reverse.map
    (fun i => num / 256 ^ i % 256)

/-! ## The issuer (`QWEDCertificateIssuer`) -/

/-- `QWEDCertificateIssuer._int_to_base64url`. -/
def int_to_base64url (num : Nat) : String :=
  b64url (bigEndianBytes num)

/-- The persistent state of a `QWEDCertificateIssuer`: its domain and the
private key loaded or generated at construction. -/
structure IssuerState where
  issuer_domain : String
  private_key : RSAPrivateKey

/-- `self.did = f"did:web:{issuer_domain}"`. -/
def didOf (st : IssuerState) : String := "did:web:" ++ st.issuer_domain

/-- `QWEDCertificateIssuer.get_public_key_jwk`, from the public numbers of
the private key's public half. -/
def get_public_key_jwk (st : IssuerState) : Json :=
  let numbers := publicKeyOf st.private_key
  .obj [("kty", .str "RSA"),
        ("kid", .str (didOf st ++ "#key-1")),
        ("use", .str "sig"),
        ("alg", .str "RS256"),
        ("n", .str (int_to_base64url numbers.n)),
        ("e", .str (int_to_base64url numbers.e))]

/-- `QWEDCertificateIssuer.create_did_document`. -/
def create_did_document (st : IssuerState) : List (String × Json) :=
  [("@context", .str "https://w3id.org/did/v1"),
   ("id", .str (didOf st)),
   ("publicKey", .arr [get_public_key_jwk st]),
   ("authentication", .arr [.str (didOf st ++ "#key-1")]),
   ("assertionMethod", .arr [.str (didOf st ++ "#key-1")])]

/-- The wall-clock reads made during one `issue_certificate` call, in
source order: `datetime.utcnow().timestamp()` inside
`_generate_credential_id`, the `isoformat` strings for `issuanceDate`,
for `expirationDate` (after `_add_years(..., 5)`), and for
`proof.created`. -/
structure IssueClock where
  ts : String
  issuanceIso : String
  expiryIso : String
  createdIso : String

/-- `QWEDCertificateIssuer._generate_credential_id`: the first 16 hex
characters of SHA-256 over `"{github_username}:{timestamp}"`. -/
def generate_credential_id (prims : CryptoPrims)
    (github_username ts : String) : String :=
  "urn:qwed:credential:" ++ github_username ++ ":" ++
    (prims.sha256hex (github_username ++ ":" ++ ts)).take 16

/-- The canonical signing base of `_sign_credential`: the credential with
`proof` removed, canonically serialized. -/
def signing_base (credential : List (String × Json)) : String :=
  dumps (.obj (removeField credential "proof"))

/-- `QWEDCertificateIssuer._sign_credential`: pop `proof`, sign the
canonical serialization of the rest, store the base64url signature in
`proof["signatureValue"]`, reattach `proof` (at the end, as CPython dict
reinsertion does).  In the only call site `proof` is present and a dict. -/
def sign_credential (prims : CryptoPrims) (private_key : RSAPrivateKey)
    (credential : List (String × Json)) : List (String × Json) :=
  let proof := pyDictGet credential "proof"
  let rest := removeField credential "proof"
  let signature_b64 := b64url (prims.rsaSignBytes private_key (signing_base credential))
  let proof' := match proof with
    | .obj pf => Json.obj (setField pf "signatureValue" (.str signature_b64))
    | x => x
  rest ++ [("proof", proof')]

/-- The credential dict built by `issue_certificate` before signing, in
source field order. -/
def unsigned_credential (prims : CryptoPrims) (st : IssuerState)
    (clock : IssueClock) (github_username completion_date : String)
    (modules_completed : Int) : List (String × Json) :=
    [("@context", .arr [.str "https://www.w3.org/2018/credentials/v1",
                        .str "https://www.w3.org/2018/credentials/examples/v1"]),
     ("type", .arr [.str "VerifiableCredential", .str "CourseCompletionCredential"]),
     ("id", .str (generate_credential_id prims github_username clock.ts)),
     ("issuer", .str (didOf st)),
     ("issuanceDate", .str (clock.issuanceIso ++ "Z")),
     ("expirationDate", .str (clock.expiryIso ++ "Z")),
     ("credentialSubject", .obj
       [("id", .str ("did:github:" ++ github_username)),
        ("name", .str github_username),
        ("courseTitle", .str "Master AI Verification: Stop LLM Hallucinations in Production"),
        ("courseCode", .str "QWED-AI-2026"),
        ("completionDate", .str completion_date),
        ("modulesCertified", .int modules_completed),
        ("coursePath", .str "Full Course (11 Modules)"),
        ("issuerName", .str "QWED-AI")]),
     ("proof", .obj
       [("type", .str "RsaSignature2018"),
        ("created", .str (clock.createdIso ++ "Z")),
        ("verificationMethod", .str (didOf st ++ "#key-1")),
        ("signatureValue", .str "")])]

/-- `QWEDCertificateIssuer.issue_certificate`: build the unsigned
credential, then `_sign_credential`. -/
def issue_certificate (prims : CryptoPrims) (st : IssuerState)
    (clock : IssueClock) (github_username completion_date : String)
    (modules_completed : Int) : List (String × Json) :=
  sign_credential prims st.private_key
    (unsigned_credential prims st clock github_username completion_date
      modules_completed)

/-! ## The verifier (`QWEDCertificateVerifier.verify_credential`) -/

/-- The four keys of the structural check (source line 40). -/
def requiredFields : List String :=
  ["@context", "type", "credentialSubject", "proof"]

/-- The body of `verify_credential` inside its `try` block: each check in
source order, short-circuiting, with the Python exceptions of the dynamic
operations surfaced in `Except`. -/
def verifyBody (issuer_did : String) (credential : List (String × Json)) :
    Except String (Bool × String) := do
  if ¬ (requiredFields.all (fun f => hasField credential f)) then
    return (false, "Missing required fields")
  if ¬ pyEqStr (pyDictGet credential "issuer") issuer_did then
    return (false, "Unknown issuer: " ++ pyStr (pyDictGet credential "issuer"))
  let mem ← pyContains "CourseCompletionCredential"
      (pyDictGetD credential "type" (.arr []))
  if ¬ mem then
    return (false, "Not a course completion credential")
  let subject := pyDictGetD credential "credentialSubject" (.obj [])
  let modules ← pyGet subject "modulesCertified"
  if ¬ pyEqInt modules 11 then
    return (false, "Only " ++ pyStr modules ++ " modules certified (need 11)")
  let name ← pyGet subject "name"
  return (true, "✅ Certificate verified for " ++ pyStr name)

/-- `verify_credential`: the `try/except` wrapper that converts any raised
exception into a `(False, "Verification error: …")` result. -/
def verify_credential (issuer_did : String)
    (credential : List (String × Json)) : Bool × String :=
  match verifyBody issuer_did credential with
  | .ok r => r
  | .error e => (false, "Verification error: " ++ e)

/-! ## The identity resolver (`QWEDCertificateVerifier._fetch_public_key`) -/

/-- The URL built at source line 19 of the verifier: an f-string that
contains no placeholder, so it does not depend on the configured
`issuer_did`.  The parameter records that the method had the configured
DID available through `self`. -/
def fetch_url (_issuer_did : String) : String :=
  "https://qwed-ai.com/.well-known/did.json"

/-- Drop everything up to and including the first colon. -/
def dropThroughColon (cs : List Char) : List Char :=
  match cs with
  | [] => []
  | c :: t => if c = ':' then t else dropThroughColon t

/-- The domain component of a `did:web` DID (the part after the second
colon of `did:web:<domain>`). -/
def didWebDomain (did : String) : String :=
  String.mk (dropThroughColon (dropThroughColon did.data))

/-- Modelled from the spec: what §4.5 requires of the fetch URL, which
the code under `src/verifier` does not compute — "Derives a fetch URL
deterministically from the DID's domain component
(`https://<domain>/.well-known/did.json`)". -/
def spec_fetch_url (issuer_did : String) : String :=
  "https://" ++ didWebDomain issuer_did ++ "/.well-known/did.json"

/-- The outcome of `requests.get(url, timeout=5)`: either a raised
exception (timeout, connection failure) or a response with a status code
and a body.  The body is carried as the outcome of `response.json()`,
since the HTTP and JSON machinery is library code outside this
repository. -/
inductive FetchResult where
  | exn (msg : String)
  | response (status : Nat) (body : Except String Json)

/-- `response.raise_for_status()`: raises `HTTPError` for a 4xx or 5xx
status code. -/
def raise_for_status (status : Nat) : Except String Unit :=
  if 400 ≤ status ∧ status < 600 then .error "HTTPError" else .ok ()

/-- Python `x[k]` subscription with a string key: dict lookup raising
`KeyError` when absent, `TypeError` on a non-dict. -/
def pySubscriptKey (x : Json) (k : String) : Except String Json :=
  match x with
  | .obj l =>
      match getField l k with
      | some v => .ok v
      | none => .error "KeyError"
  | _ => .error "TypeError: value is not subscriptable"

/-- Python `x[0]`: first element of a list raising `IndexError` when
empty; an integer key is not a key of any embedded dict (`KeyError`);
`TypeError` on non-subscriptable values.  (Subscription of a string by an
integer cannot be reached here: `response.json()` never returns a bare
string for a JSON object body, and a string body is modelled as a parse
outcome.) -/
def pySubscriptZero (x : Json) : Except String Json :=
  match x with
  | .arr [] => .error "IndexError"
  | .arr (v :: _) => .ok v
  | .obj _ => .error "KeyError"
  | .str s => if s.isEmpty then .error "IndexError" else .ok (.str (s.take 1))
  | _ => .error "TypeError: value is not subscriptable"

/-- The body of `_fetch_public_key` inside its `try` block, over the
abstract network outcome. -/
def fetchBody (r : FetchResult) : Except String Json := do
  match r with
  | .exn m => .error m
  | .response status body =>
      raise_for_status status
      let did_doc ← body
      let pk ← pySubscriptKey did_doc "publicKey"
      let first ← pySubscriptZero pk
      return first

/-- `_fetch_public_key`: the `try/except` wrapper returning `None` on any
raised exception. -/
def fetch_public_key (r : FetchResult) : Option Json :=
  match fetchBody r with
  | .ok j => some j
  | .error _ => none

/-! ## Check predicates (the five checks of §4.6 in source order) -/

/-- Check 1 of `verify_credential`: all required fields present. -/
def structuralOk (credential : List (String × Json)) : Bool :=
  requiredFields.all (fun f => hasField credential f)

/-- Check 2: the `issuer` field equals the configured issuer DID. -/
def issuerOk (issuer_did : String) (credential : List (String × Json)) : Bool :=
  pyEqStr (pyDictGet credential "issuer") issuer_did

/-- Check 3 as evaluated by the code: Python membership of the course
type in `credential.get("type", [])`, which can raise. -/
def typeMem (credential : List (String × Json)) : Except String Bool :=
  pyContains "CourseCompletionCredential" (pyDictGetD credential "type" (.arr []))

/-- The subject as the code reads it: `credential.get("credentialSubject", {})`. -/
def subjectOf (credential : List (String × Json)) : Json :=
  pyDictGetD credential "credentialSubject" (.obj [])

/-! ## Step characterization of `verify_credential` -/

theorem verify_missing {did : String} {c : List (String × Json)}
    (h : structuralOk c = false) :
    verify_credential did c = (false, "Missing required fields") := by
  unfold structuralOk at h
  unfold verify_credential verifyBody
  simp only [h]
  rfl

theorem verify_unknown_issuer {did : String} {c : List (String × Json)}
    (h1 : structuralOk c = true) (h2 : issuerOk did c = false) :
    verify_credential did c =
      (false, "Unknown issuer: " ++ pyStr (pyDictGet c "issuer")) := by
  unfold structuralOk at h1
  unfold issuerOk at h2
  unfold verify_credential verifyBody
  simp only [h1, h2]
  rfl

theorem verify_type_error {did : String} {c : List (String × Json)} {e : String}
    (h1 : structuralOk c = true) (h2 : issuerOk did c = true)
    (h3 : typeMem c = .error e) :
    verify_credential did c = (false, "Verification error: " ++ e) := by
  unfold structuralOk at h1
  unfold issuerOk at h2
  unfold typeMem at h3
  unfold verify_credential verifyBody
  simp only [h1, h2, h3]
  rfl

theorem verify_not_course {did : String} {c : List (String × Json)}
    (h1 : structuralOk c = true) (h2 : issuerOk did c = true)
    (h3 : typeMem c = .ok false) :
    verify_credential did c = (false, "Not a course completion credential") := by
  unfold structuralOk at h1
  unfold issuerOk at h2
  unfold typeMem at h3
  unfold verify_credential verifyBody
  simp only [h1, h2, h3]
  rfl

theorem verify_subject_error {did : String} {c : List (String × Json)} {e : String}
    (h1 : structuralOk c = true) (h2 : issuerOk did c = true)
    (h3 : typeMem c = .ok true)
    (h4 : pyGet (subjectOf c) "modulesCertified" = .error e) :
    verify_credential did c = (false, "Verification error: " ++ e) := by
  unfold structuralOk at h1
  unfold issuerOk at h2
  unfold typeMem at h3
  unfold subjectOf at h4
  unfold verify_credential verifyBody
  simp only [h1, h2, h3, h4, bind, Except.bind]
  rfl

theorem verify_modules_fail {did : String} {c : List (String × Json)} {v : Json}
    (h1 : structuralOk c = true) (h2 : issuerOk did c = true)
    (h3 : typeMem c = .ok true)
    (h4 : pyGet (subjectOf c) "modulesCertified" = .ok v)
    (h5 : pyEqInt v 11 = false) :
    verify_credential did c =
      (false, "Only " ++ pyStr v ++ " modules certified (need 11)") := by
  unfold structuralOk at h1
  unfold issuerOk at h2
  unfold typeMem at h3
  unfold subjectOf at h4
  unfold verify_credential verifyBody
  simp only [h1, h2, h3, h4, h5, bind, Except.bind]
  rfl

theorem verify_success {did : String} {c : List (String × Json)}
    {l : List (String × Json)}
    (h1 : structuralOk c = true) (h2 : issuerOk did c = true)
    (h3 : typeMem c = .ok true)
    (h4 : subjectOf c = .obj l)
    (h5 : pyEqInt (pyDictGet l "modulesCertified") 11 = true) :
    verify_credential did c =
      (true, "✅ Certificate verified for " ++ pyStr (pyDictGet l "name")) := by
  unfold structuralOk at h1
  unfold issuerOk at h2
  unfold typeMem at h3
  unfold subjectOf at h4
  unfold verify_credential verifyBody
  simp only [h1, h2, h3, h4, pyGet, h5, bind, Except.bind]
  rfl
/-! ## Dictionary operation lemmas -/

theorem getField_cons (p : String × Json) (t : List (String × Json)) (k : String) :
    getField (p :: t) k = if p.1 == k then some p.2 else getField t k := by
  by_cases h : p.1 == k <;> simp [getField, List.find?_cons, h]

theorem hasField_cons (p : String × Json) (t : List (String × Json)) (k : String) :
    hasField (p :: t) k = ((p.1 == k) || hasField t k) := by
  simp [hasField]

theorem getField_append (l1 l2 : List (String × Json)) (k : String) :
    getField (l1 ++ l2) k =
      ((getField l1 k).rec (getField l2 k) (fun v => some v)) := by
  induction l1 with
  | nil => simp [getField]
  | cons p t ih =>
      by_cases h : p.1 == k <;> simp [getField_cons, h, ih]

theorem getField_eq_none (l : List (String × Json)) (k : String)
    (h : hasField l k = false) : getField l k = none := by
  induction l with
  | nil => simp [getField]
  | cons p t ih =>
      rw [hasField_cons] at h
      simp only [Bool.or_eq_false_iff] at h
      rw [getField_cons, h.1]
      simpa using ih h.2

theorem getField_replaceField_self (l : List (String × Json)) (k : String)
    (v : Json) (h : hasField l k = true) :
    getField (replaceField l k v) k = some v := by
  induction l with
  | nil => simp [hasField] at h
  | cons p t ih =>
      rw [hasField_cons] at h
      by_cases hp : p.1 == k
      · simp [replaceField, hp, getField_cons]
      · simp only [hp, Bool.false_or] at h
        simp [replaceField, hp, getField_cons, ih h]

theorem getField_replaceField_ne (l : List (String × Json)) (k : String)
    (v : Json) (k' : String) (h : k' ≠ k) :
    getField (replaceField l k v) k' = getField l k' := by
  induction l with
  | nil => simp [replaceField]
  | cons p t ih =>
      by_cases hp : p.1 == k
      · have hk : ¬ (k == k') = true := by
          simp only [beq_iff_eq]
          exact fun hx => h hx.symm
        have hp' : ¬ (p.1 == k') = true := by
          simp only [beq_iff_eq] at hp ⊢
          rw [hp]
          exact fun hx => h hx.symm
        simp [replaceField, hp, getField_cons, hk, hp', ih]
      · simp [replaceField, hp, getField_cons, ih]

theorem getField_setField_self (l : List (String × Json)) (k : String) (v : Json) :
    getField (setField l k v) k = some v := by
  unfold setField
  by_cases hk : hasField l k
  · simp [hk, getField_replaceField_self l k v hk]
  · simp only [Bool.not_eq_true] at hk
    simp [hk, getField_append, getField_eq_none l k hk, getField_cons]

theorem getField_setField_ne (l : List (String × Json)) (k : String) (v : Json)
    (k' : String) (h : k' ≠ k) :
    getField (setField l k v) k' = getField l k' := by
  unfold setField
  by_cases hk : hasField l k
  · simp [hk, getField_replaceField_ne l k v k' h]
  · have hkk : ¬ (k == k') = true := by
      simp only [beq_iff_eq]
      exact fun hx => h hx.symm
    simp only [Bool.not_eq_true] at hk
    simp [hk, getField_append, getField_cons, hkk, getField]

theorem removeField_cons (p : String × Json) (t : List (String × Json))
    (k : String) :
    removeField (p :: t) k =
      if p.1 == k then removeField t k else p :: removeField t k := by
  cases hp : (p.1 == k) <;> simp [removeField, List.filter_cons, bne, hp]

theorem hasField_replaceField (l : List (String × Json)) (k : String)
    (v : Json) (k' : String) :
    hasField (replaceField l k v) k' =
      (hasField l k' || (hasField l k && (k == k'))) := by
  induction l with
  | nil => simp [replaceField, hasField]
  | cons p t ih =>
      unfold replaceField
      cases hp : (p.1 == k) with
      | true =>
          have hpk : p.1 = k := by simpa using hp
          simp only [if_true]
          rw [hasField_cons, hasField_cons, hasField_cons, ih, hpk]
          cases hbk : (k == k') <;> cases hasField t k' <;> cases hasField t k <;>
            simp [hbk]
      | false =>
          simp only [Bool.false_eq_true, if_false]
          rw [hasField_cons, hasField_cons, hasField_cons, ih, hp]
          cases hq : (p.1 == k') <;> cases hasField t k' <;> cases hasField t k <;>
            simp [hq]

theorem hasField_setField_self (l : List (String × Json)) (k : String) (v : Json) :
    hasField (setField l k v) k = true := by
  unfold setField
  by_cases hk : hasField l k = true
  · simp [hk, hasField_replaceField]
  · simp only [Bool.not_eq_true] at hk
    simp only [hk, Bool.false_eq_true, if_false]
    unfold hasField at hk ⊢
    simp [List.any_append]

theorem hasField_setField_ne (l : List (String × Json)) (k : String) (v : Json)
    (k' : String) (h : k' ≠ k) :
    hasField (setField l k v) k' = hasField l k' := by
  unfold setField
  have hkk : (k == k') = false := by
    simp only [beq_eq_false_iff_ne, ne_eq]
    exact fun hx => h hx.symm
  by_cases hk : hasField l k = true
  · simp [hk, hasField_replaceField, hkk]
  · simp only [Bool.not_eq_true] at hk
    simp only [hk, Bool.false_eq_true, if_false]
    unfold hasField
    simp [List.any_append, hkk]

theorem getField_removeField_ne (l : List (String × Json)) (k k' : String)
    (h : k' ≠ k) :
    getField (removeField l k) k' = getField l k' := by
  induction l with
  | nil => simp [removeField]
  | cons p t ih =>
      rw [removeField_cons]
      by_cases hp : (p.1 == k) = true
      · have hp' : (p.1 == k') = false := by
          simp only [beq_iff_eq] at hp
          simp only [beq_eq_false_iff_ne, ne_eq, hp]
          exact fun hx => h hx.symm
        rw [if_pos hp, getField_cons, hp']
        simp [ih]
      · simp only [Bool.not_eq_true] at hp
        rw [if_neg (by simp [hp]), getField_cons, getField_cons, ih]

theorem hasField_removeField_ne (l : List (String × Json)) (k k' : String)
    (h : k' ≠ k) :
    hasField (removeField l k) k' = hasField l k' := by
  induction l with
  | nil => simp [removeField]
  | cons p t ih =>
      rw [removeField_cons]
      by_cases hp : (p.1 == k) = true
      · have hp' : (p.1 == k') = false := by
          simp only [beq_iff_eq] at hp
          simp only [beq_eq_false_iff_ne, ne_eq, hp]
          exact fun hx => h hx.symm
        rw [if_pos hp, hasField_cons, ih, hp']
        simp
      · simp only [Bool.not_eq_true] at hp
        rw [if_neg (by simp [hp]), hasField_cons, hasField_cons, ih]

/-- `verify_credential` reads only the fields `@context`, `type`,
`credentialSubject`, `proof` and `issuer` of the credential. -/
theorem verify_credential_congr (did : String)
    (c c' : List (String × Json))
    (h1 : hasField c' "@context" = hasField c "@context")
    (h2 : hasField c' "type" = hasField c "type")
    (h3 : hasField c' "credentialSubject" = hasField c "credentialSubject")
    (h4 : hasField c' "proof" = hasField c "proof")
    (h5 : getField c' "issuer" = getField c "issuer")
    (h6 : getField c' "type" = getField c "type")
    (h7 : getField c' "credentialSubject" = getField c "credentialSubject") :
    verify_credential did c' = verify_credential did c := by
  unfold verify_credential verifyBody
  simp only [requiredFields, List.all_cons, List.all_nil, pyDictGet, pyDictGetD,
    h1, h2, h3, h4, h5, h6, h7]

/-! ## Concrete data used by witnesses -/

/-- The default issuer DID both components are configured with. -/
def did0 : String := "did:web:qwed-ai.com"

/-- A concrete credential subject completing all 11 modules. -/
def subj0 : List (String × Json) :=
  [("id", .str "did:github:bob"), ("name", .str "bob"),
   ("modulesCertified", .int 11)]

/-- A concrete credential that passes every check of the verifier, with
an `expirationDate` far in the past. -/
def cred0 : List (String × Json) :=
  [("@context", .arr [.str "https://www.w3.org/2018/credentials/v1"]),
   ("type", .arr [.str "VerifiableCredential", .str "CourseCompletionCredential"]),
   ("issuer", .str "did:web:qwed-ai.com"),
   ("expirationDate", .str "1999-01-01T00:00:00Z"),
   ("credentialSubject", .obj subj0),
   ("proof", .obj [("type", .str "RsaSignature2018")])]

/-! ## Claim C6 -/

/-- C6: `verify_credential` never compares `expirationDate` against the
current time — it reads no clock at all, and its result is invariant
under overwriting or removing `expirationDate`; a credential passing the
structural, issuer, type and module-count checks verifies as
`(true, …)` whatever its `expirationDate` (including a past date). -/
theorem c6_expiration_not_checked :
    ∀ (did : String) (c : List (String × Json)) (v : Json),
      verify_credential did (setField c "expirationDate" v) =
        verify_credential did c ∧
      verify_credential did (removeField c "expirationDate") =
        verify_credential did c ∧
      (structuralOk c = true → issuerOk did c = true → typeMem c = .ok true →
       ∀ l, subjectOf c = .obj l →
         pyEqInt (pyDictGet l "modulesCertified") 11 = true →
         verify_credential did c =
           (true, "✅ Certificate verified for " ++ pyStr (pyDictGet l "name"))) := by
  intro did c v
  refine ⟨?_, ?_, ?_⟩
  · exact verify_credential_congr did c _
      (hasField_setField_ne c _ v _ (by decide))
      (hasField_setField_ne c _ v _ (by decide))
      (hasField_setField_ne c _ v _ (by decide))
      (hasField_setField_ne c _ v _ (by decide))
      (getField_setField_ne c _ v _ (by decide))
      (getField_setField_ne c _ v _ (by decide))
      (getField_setField_ne c _ v _ (by decide))
  · exact verify_credential_congr did c _
      (hasField_removeField_ne c _ _ (by decide))
      (hasField_removeField_ne c _ _ (by decide))
      (hasField_removeField_ne c _ _ (by decide))
      (hasField_removeField_ne c _ _ (by decide))
      (getField_removeField_ne c _ _ (by decide))
      (getField_removeField_ne c _ _ (by decide))
      (getField_removeField_ne c _ _ (by decide))
  · intro h1 h2 h3 l h4 h5
    exact verify_success h1 h2 h3 h4 h5

/-- Witness for C6 at a concrete credential whose `expirationDate` lies
in the past. -/
theorem c6_expiration_not_checked_witness :
    structuralOk cred0 = true ∧
    verify_credential did0
        (setField cred0 "expirationDate" (.str "1990-01-01T00:00:00Z")) =
      verify_credential did0 cred0 ∧
    verify_credential did0 cred0 =
      (true, "✅ Certificate verified for bob") :=
  ⟨rfl,
   (c6_expiration_not_checked did0 cred0 (.str "1990-01-01T00:00:00Z")).1,
   (c6_expiration_not_checked did0 cred0 .null).2.2 rfl rfl rfl subj0 rfl rfl⟩

/-! ## Claim C10 -/

/-- A lemma of the embedding: an absent key reads as `None`. -/
theorem pyDictGet_eq_null_of_not_hasField (c : List (String × Json))
    (k : String) (h : hasField c k = false) : pyDictGet c k = .null := by
  simp [pyDictGet, getField_eq_none c k h]

/-- C10: a credential carrying `@context`, `type`, `credentialSubject`
and `proof` but no `issuer` key passes the structural check and is
rejected at the issuer-match step with reason `"Unknown issuer: None"`
(missing issuer reported as issuer mismatch, not as a missing field),
for every configured issuer DID. -/
theorem c10_missing_issuer_is_unknown_issuer :
    ∀ (did : String) (c : List (String × Json)),
      structuralOk c = true → hasField c "issuer" = false →
      verify_credential did c = (false, "Unknown issuer: None") := by
  intro did c h1 h2
  have hnull : pyDictGet c "issuer" = .null :=
    pyDictGet_eq_null_of_not_hasField c "issuer" h2
  have := @verify_unknown_issuer did c h1
    (by simp [issuerOk, hnull, pyEqStr])
  rw [this, hnull]
  rfl

/-- A concrete credential with all four required fields and no
`issuer`. -/
def credNoIssuer : List (String × Json) :=
  [("@context", .arr [.str "https://www.w3.org/2018/credentials/v1"]),
   ("type", .arr [.str "CourseCompletionCredential"]),
   ("credentialSubject", .obj subj0),
   ("proof", .obj [])]

/-- Witness for C10. -/
theorem c10_missing_issuer_is_unknown_issuer_witness :
    structuralOk credNoIssuer = true ∧
    hasField credNoIssuer "issuer" = false ∧
    verify_credential did0 credNoIssuer = (false, "Unknown issuer: None") :=
  ⟨rfl, rfl, c10_missing_issuer_is_unknown_issuer did0 credNoIssuer rfl rfl⟩

/-! ## Claim C4 -/

/-- C4: `verify_credential` is total — on every credential dictionary it
returns a `(Bool, String)` pair.  Any exception raised inside the body
is caught and surfaced as `(false, "Verification error: …")`, and every
other outcome is either `(false, reason)` for a failed check or the
single success shape `(true, "✅ Certificate verified for …")`; no fault
propagates past the verifier boundary. -/
theorem c4_verifier_never_raises :
    ∀ (did : String) (c : List (String × Json)),
      (∀ e, verifyBody did c = .error e →
        verify_credential did c = (false, "Verification error: " ++ e)) ∧
      ((verify_credential did c).1 = false ∨
       ∃ l, subjectOf c = .obj l ∧
         verify_credential did c =
           (true, "✅ Certificate verified for " ++ pyStr (pyDictGet l "name"))) := by
  intro did c
  constructor
  · intro e he
    simp [verify_credential, he]
  · cases h1 : structuralOk c with
    | false => exact .inl (by rw [verify_missing h1])
    | true =>
      cases h2 : issuerOk did c with
      | false => exact .inl (by rw [verify_unknown_issuer h1 h2])
      | true =>
        cases h3 : typeMem c with
        | error e => exact .inl (by rw [verify_type_error h1 h2 h3])
        | ok b =>
          cases b with
          | false => exact .inl (by rw [verify_not_course h1 h2 h3])
          | true =>
            cases h4 : pyGet (subjectOf c) "modulesCertified" with
            | error e => exact .inl (by rw [verify_subject_error h1 h2 h3 h4])
            | ok v =>
              cases h5 : pyEqInt v 11 with
              | false => exact .inl (by rw [verify_modules_fail h1 h2 h3 h4 h5])
              | true =>
                cases hsub : subjectOf c with
                | null => rw [hsub] at h4; simp [pyGet] at h4
                | bool b' => rw [hsub] at h4; simp [pyGet] at h4
                | int n => rw [hsub] at h4; simp [pyGet] at h4
                | str s => rw [hsub] at h4; simp [pyGet] at h4
                | arr xs => rw [hsub] at h4; simp [pyGet] at h4
                | obj l =>
                    have hv : pyDictGet l "modulesCertified" = v := by
                      rw [hsub] at h4
                      simpa [pyGet] using h4
                    refine .inr ⟨l, ?_, ?_⟩
                    · exact rfl
                    · rw [verify_success h1 h2 h3 hsub (hv ▸ h5)]

/-- A concrete credential whose `type` field is an integer, so the
membership test raises `TypeError` inside the `try` block. -/
def credTypeInt : List (String × Json) :=
  [("@context", .arr []),
   ("type", .int 5),
   ("credentialSubject", .obj subj0),
   ("proof", .obj []),
   ("issuer", .str "did:web:qwed-ai.com")]

/-- Witness for C4: the raised `TypeError` is caught and returned as a
`(false, reason)` result. -/
theorem c4_verifier_never_raises_witness :
    verifyBody did0 credTypeInt =
      .error "TypeError: argument is not iterable" ∧
    verify_credential did0 credTypeInt =
      (false, "Verification error: TypeError: argument is not iterable") :=
  ⟨rfl, (c4_verifier_never_raises did0 credTypeInt).1
    "TypeError: argument is not iterable" rfl⟩

/-! ## Claim C5 -/

/-- C5: the module-count check requires exactly 11.  Whenever the
subject's `modulesCertified` does not compare equal to 11 the overall
result is `false`; when the earlier checks pass it is rejected with the
reason naming the certified and the required count
(`"Only {n} modules certified (need 11)"`); and with the earlier checks
passed a count of exactly 11 makes the credential verify. -/
theorem c5_module_count_exact :
    ∀ (did : String) (c : List (String × Json)),
      (∀ v, pyGet (subjectOf c) "modulesCertified" = .ok v →
        pyEqInt v 11 = false → (verify_credential did c).1 = false) ∧
      (structuralOk c = true → issuerOk did c = true → typeMem c = .ok true →
       ∀ v, pyGet (subjectOf c) "modulesCertified" = .ok v →
         pyEqInt v 11 = false →
         verify_credential did c =
           (false, "Only " ++ pyStr v ++ " modules certified (need 11)")) ∧
      (structuralOk c = true → issuerOk did c = true → typeMem c = .ok true →
       ∀ l, subjectOf c = .obj l →
         pyDictGet l "modulesCertified" = .int 11 →
         (verify_credential did c).1 = true) := by
  intro did c
  refine ⟨?_, ?_, ?_⟩
  · intro v hv hne
    cases h1 : structuralOk c with
    | false => rw [verify_missing h1]
    | true =>
      cases h2 : issuerOk did c with
      | false => rw [verify_unknown_issuer h1 h2]
      | true =>
        cases h3 : typeMem c with
        | error e => rw [verify_type_error h1 h2 h3]
        | ok b =>
          cases b with
          | false => rw [verify_not_course h1 h2 h3]
          | true => rw [verify_modules_fail h1 h2 h3 hv hne]
  · intro h1 h2 h3 v hv hne
    exact verify_modules_fail h1 h2 h3 hv hne
  · intro h1 h2 h3 l hl hmod
    rw [verify_success h1 h2 h3 hl (by rw [hmod]; rfl)]

/-- A concrete credential certifying only 7 of the 11 modules. -/
def credSeven : List (String × Json) :=
  [("@context", .arr [.str "https://www.w3.org/2018/credentials/v1"]),
   ("type", .arr [.str "VerifiableCredential", .str "CourseCompletionCredential"]),
   ("issuer", .str "did:web:qwed-ai.com"),
   ("credentialSubject", .obj
     [("id", .str "did:github:carol"), ("name", .str "carol"),
      ("modulesCertified", .int 7)]),
   ("proof", .obj [("type", .str "RsaSignature2018")])]

/-- Witness for C5 at a count of 7. -/
theorem c5_module_count_exact_witness :
    pyGet (subjectOf credSeven) "modulesCertified" = .ok (.int 7) ∧
    verify_credential did0 credSeven =
      (false, "Only 7 modules certified (need 11)") :=
  ⟨rfl, (c5_module_count_exact did0 credSeven).2.1 rfl rfl rfl (.int 7) rfl rfl⟩

/-! ## Claim C3 -/

/-- C3: the fetch URL is NOT derived from the configured DID.  The code
builds a constant URL (an f-string with no placeholder), so for the
configured DID `did:web:example.com` it still fetches the
`qwed-ai.com` identity document, while the specified derivation yields
`https://example.com/.well-known/did.json`. -/
theorem c3_fetch_url_hardcoded :
    fetch_url "did:web:example.com" =
      "https://qwed-ai.com/.well-known/did.json" ∧
    spec_fetch_url "did:web:example.com" =
      "https://example.com/.well-known/did.json" ∧
    fetch_url "did:web:example.com" ≠ spec_fetch_url "did:web:example.com" := by
  refine ⟨rfl, by decide, by decide⟩

/-! ## Claim C7 -/

/-- C7: on every failure mode of identity-document resolution — a raised
network exception (timeout, unreachable host), a non-2xx status, a
malformed body, a missing `publicKey` field, or an empty `publicKey`
list — `_fetch_public_key` returns `None` instead of raising. -/
theorem c7_resolver_failure_returns_null :
    (∀ m, fetch_public_key (.exn m) = none) ∧
    (∀ status body, 400 ≤ status → status < 600 →
       fetch_public_key (.response status body) = none) ∧
    (∀ status e, fetch_public_key (.response status (.error e)) = none) ∧
    (∀ status l, hasField l "publicKey" = false →
       fetch_public_key (.response status (.ok (.obj l))) = none) ∧
    (∀ status l, getField l "publicKey" = some (.arr []) →
       fetch_public_key (.response status (.ok (.obj l))) = none) := by
  refine ⟨fun m => rfl, ?_, ?_, ?_, ?_⟩
  · intro status body h1 h2
    simp only [fetch_public_key, fetchBody, raise_for_status]
    rw [if_pos ⟨h1, h2⟩]
    rfl
  · intro status e
    simp only [fetch_public_key, fetchBody, raise_for_status]
    by_cases hs : 400 ≤ status ∧ status < 600
    · rw [if_pos hs]
      rfl
    · rw [if_neg hs]
      rfl
  · intro status l hl
    simp only [fetch_public_key, fetchBody, raise_for_status]
    have hkey : pySubscriptKey (.obj l) "publicKey" = .error "KeyError" := by
      simp [pySubscriptKey, getField_eq_none l _ hl]
    by_cases hs : 400 ≤ status ∧ status < 600
    · rw [if_pos hs]
      rfl
    · rw [if_neg hs]
      simp [bind, Except.bind, hkey]
  · intro status l hl
    simp only [fetch_public_key, fetchBody, raise_for_status]
    have hkey : pySubscriptKey (.obj l) "publicKey" = .ok (.arr []) := by
      simp [pySubscriptKey, hl]
    by_cases hs : 400 ≤ status ∧ status < 600
    · rw [if_pos hs]
      rfl
    · rw [if_neg hs]
      simp [bind, Except.bind, hkey, pySubscriptZero]

/-- Witness for C7: a 404 response and a missing-key body each resolve
to `None`. -/
theorem c7_resolver_failure_returns_null_witness :
    (400 ≤ 404 ∧ 404 < 600) ∧
    fetch_public_key (.response 404 (.ok (.obj []))) = none ∧
    fetch_public_key (.response 200 (.ok (.obj [("id", .str "x")]))) = none :=
  ⟨⟨by decide, by decide⟩,
   (c7_resolver_failure_returns_null).2.1 404 (.ok (.obj []))
     (by decide) (by decide),
   (c7_resolver_failure_returns_null).2.2.2.1 200 [("id", .str "x")] rfl⟩

/-! ## Claim C2 -/

/-- C2: round trip.  For every issuer configuration, clock reading,
subject id and completion date, a credential issued for the full 11
modules is accepted by a verifier configured with the same issuer DID,
with the confirmation message naming the subject. -/
theorem c2_round_trip :
    ∀ (prims : CryptoPrims) (st : IssuerState) (clock : IssueClock)
      (username completion_date : String) (modules : Int),
      modules = 11 →
      verify_credential (didOf st)
        (issue_certificate prims st clock username completion_date modules) =
        (true, "✅ Certificate verified for " ++ username) := by
  intro prims st clock username completion_date modules hm
  subst hm
  have h2 : issuerOk (didOf st)
      (issue_certificate prims st clock username completion_date 11) = true := by
    have hv : pyDictGet
        (issue_certificate prims st clock username completion_date 11)
        "issuer" = .str (didOf st) := rfl
    unfold issuerOk
    rw [hv]
    simp [pyEqStr]
  have h1 : structuralOk
      (issue_certificate prims st clock username completion_date 11) = true := rfl
  have h3 : typeMem
      (issue_certificate prims st clock username completion_date 11) =
      .ok true := rfl
  have h4 : subjectOf
      (issue_certificate prims st clock username completion_date 11) =
      .obj [("id", .str ("did:github:" ++ username)),
            ("name", .str username),
            ("courseTitle",
              .str "Master AI Verification: Stop LLM Hallucinations in Production"),
            ("courseCode", .str "QWED-AI-2026"),
            ("completionDate", .str completion_date),
            ("modulesCertified", .int 11),
            ("coursePath", .str "Full Course (11 Modules)"),
            ("issuerName", .str "QWED-AI")] := rfl
  rw [verify_success h1 h2 h3 h4 rfl]
  rfl

/-- Concrete instances of the external primitives for evaluation: a
fixed hex digest and a fixed signature byte string.  The verifier never
inspects either value. -/
def prims0 : CryptoPrims :=
  { sha256hex := fun _ => "e3b0c44298fc1c149afbf4c8996fb92427ae41e4649b934c"
    rsaSignBytes := fun _ _ => [1, 2, 3] }

/-- A small concrete RSA key (n = 61 · 53, e = 17, d = 413). -/
def key0 : RSAPrivateKey := ⟨3233, 17, 413⟩

/-- A concrete issuer over the default domain. -/
def st0 : IssuerState := ⟨"qwed-ai.com", key0⟩

/-- Concrete clock readings for one issuance. -/
def clock0 : IssueClock :=
  ⟨"1700000000.0", "2026-01-01T00:00:00", "2031-01-01T00:00:00",
   "2026-01-01T00:00:00"⟩

/-- Witness for C2: issue for `alice` with 11 modules and verify. -/
theorem c2_round_trip_witness :
    verify_credential (didOf st0)
      (issue_certificate prims0 st0 clock0 "alice" "2024-01-01" 11) =
      (true, "✅ Certificate verified for alice") :=
  c2_round_trip prims0 st0 clock0 "alice" "2024-01-01" 11 rfl

/-! ## Claim C1 -/

/-- Decomposition of the structural check into its four fields. -/
theorem structuralOk_iff (c : List (String × Json)) :
    structuralOk c = true ↔
      (hasField c "@context" = true ∧ hasField c "type" = true ∧
       hasField c "credentialSubject" = true ∧ hasField c "proof" = true) := by
  simp [structuralOk, requiredFields]

/-- A credential issued for `alice` over the default issuer. -/
def aliceCred : List (String × Json) :=
  issue_certificate prims0 st0 clock0 "alice" "2024-01-01" 11

/-- `aliceCred` with the single subject field `name` changed to
`mallory` after issuance, everything else (issuer, type, modules,
signature) untouched. -/
def aliceCredTampered : List (String × Json) :=
  setField aliceCred "credentialSubject"
    (match pyDictGet aliceCred "credentialSubject" with
     | .obj l => Json.obj (setField l "name" (.str "mallory"))
     | x => x)

/-- Counterexample to C1: the tampered credential still verifies as
`(true, …)` — the result does not flip to `(false, …)` with a
signature-mismatch reason, because `verify_credential` performs no
signature comparison at all. -/
theorem c1_counterexample_tampered_accepted :
    verify_credential did0 aliceCredTampered =
      (true, "✅ Certificate verified for mallory") := rfl

/-- C1 amended: mutating a single `credentialSubject` field of a
credential that verifies leaves the result `(true, …)` for every field
other than `modulesCertified` (no signature check exists to detect the
tamper); only a mutation of `modulesCertified` to a value other than 11
flips the result, and then with the module-count reason, not a
signature-mismatch reason. -/
theorem c1_amended_no_tamper_detection :
    ∀ (did : String) (c : List (String × Json)) (l : List (String × Json))
      (k : String) (v : Json),
      structuralOk c = true → issuerOk did c = true → typeMem c = .ok true →
      subjectOf c = .obj l →
      pyEqInt (pyDictGet l "modulesCertified") 11 = true →
      (k ≠ "modulesCertified" →
        (verify_credential did
          (setField c "credentialSubject" (.obj (setField l k v)))).1 = true) ∧
      (∀ v', pyEqInt v' 11 = false →
        verify_credential did
            (setField c "credentialSubject"
              (.obj (setField l "modulesCertified" v'))) =
          (false, "Only " ++ pyStr v' ++ " modules certified (need 11)")) := by
  intro did c l k v h1 h2 h3 h4 h5
  have hset : ∀ s : Json,
      structuralOk (setField c "credentialSubject" s) = true ∧
      issuerOk did (setField c "credentialSubject" s) = true ∧
      typeMem (setField c "credentialSubject" s) = .ok true ∧
      subjectOf (setField c "credentialSubject" s) = s := by
    intro s
    obtain ⟨ha, hb, hc, hd⟩ := (structuralOk_iff c).mp h1
    refine ⟨?_, ?_, ?_, ?_⟩
    · exact (structuralOk_iff _).mpr
        ⟨by rw [hasField_setField_ne c _ s _ (by decide)]; exact ha,
         by rw [hasField_setField_ne c _ s _ (by decide)]; exact hb,
         hasField_setField_self c _ s,
         by rw [hasField_setField_ne c _ s _ (by decide)]; exact hd⟩
    · unfold issuerOk pyDictGet
      rw [getField_setField_ne c _ s _ (by decide)]
      exact h2
    · unfold typeMem pyDictGetD
      rw [getField_setField_ne c _ s _ (by decide)]
      exact h3
    · unfold subjectOf pyDictGetD
      rw [getField_setField_self c _ s]
      rfl
  constructor
  · intro hk
    obtain ⟨ha, hb, hc, hd⟩ := hset (.obj (setField l k v))
    have hmod : pyDictGet (setField l k v) "modulesCertified" =
        pyDictGet l "modulesCertified" := by
      unfold pyDictGet
      rw [getField_setField_ne l _ v _ (fun hx => hk hx.symm)]
    rw [verify_success ha hb hc hd (by rw [hmod]; exact h5)]
  · intro v' hv'
    obtain ⟨ha, hb, hc, hd⟩ := hset (.obj (setField l "modulesCertified" v'))
    have hmod : pyGet
        (subjectOf (setField c "credentialSubject"
          (.obj (setField l "modulesCertified" v')))) "modulesCertified" =
        .ok v' := by
      rw [hd]
      simp [pyGet, pyDictGet, getField_setField_self]
    exact verify_modules_fail ha hb hc hmod hv'

/-- Witness for the amended C1 at a concrete credential: mutating
`courseTitle` leaves the credential accepted; mutating
`modulesCertified` to 10 is rejected with the module-count reason. -/
theorem c1_amended_no_tamper_detection_witness :
    (verify_credential did0
      (setField cred0 "credentialSubject"
        (.obj (setField subj0 "courseTitle" (.str "forged"))))).1 = true ∧
    verify_credential did0
        (setField cred0 "credentialSubject"
          (.obj (setField subj0 "modulesCertified" (.int 10)))) =
      (false, "Only 10 modules certified (need 11)") :=
  ⟨(c1_amended_no_tamper_detection did0 cred0 subj0 "courseTitle" (.str "forged")
      rfl rfl rfl rfl rfl).1 (by decide),
   (c1_amended_no_tamper_detection did0 cred0 subj0 "courseTitle" (.str "forged")
      rfl rfl rfl rfl rfl).2 (.int 10) rfl⟩

/-! ## Claim C9 -/

/-- The field of a JSON object value, when the value is an object. -/
def jsonField (j : Json) (k : String) : Option Json :=
  match j with
  | .obj l => getField l k
  | _ => none

/-- The `proof.signatureValue` entry of a credential. -/
def signatureValueOf (credential : List (String × Json)) : Option Json :=
  match getField credential "proof" with
  | some pf => jsonField pf "signatureValue"
  | none => none

/-- C9: for every issuer state, the identity document embeds exactly the
issuer's JWK, whose `n` and `e` are the base64url encodings of the
public numbers of `st.private_key` — the very key handed to the signing
primitive for every credential the issuer issues. -/
theorem c9_did_document_key_matches_signing_key :
    ∀ (prims : CryptoPrims) (st : IssuerState) (clock : IssueClock)
      (username completion_date : String) (modules : Int),
      getField (create_did_document st) "publicKey" =
        some (.arr [get_public_key_jwk st]) ∧
      jsonField (get_public_key_jwk st) "n" =
        some (.str (int_to_base64url (publicKeyOf st.private_key).n)) ∧
      jsonField (get_public_key_jwk st) "e" =
        some (.str (int_to_base64url (publicKeyOf st.private_key).e)) ∧
      signatureValueOf
          (issue_certificate prims st clock username completion_date modules) =
        some (.str (b64url (prims.rsaSignBytes st.private_key
          (signing_base (unsigned_credential prims st clock username
            completion_date modules))))) := by
  intro prims st clock username completion_date modules
  exact ⟨rfl, rfl, rfl, rfl⟩

/-! ## Claim C8: canonicalization machinery -/

theorem keyLe_trans : ∀ (a b c : String × String),
    keyLe a b → keyLe b c → keyLe a c := by
  intro a b c hab hbc
  simp only [keyLe, decide_eq_true_eq] at *
  exact le_trans hab hbc

theorem keyLe_total : ∀ (a b : String × String), keyLe a b || keyLe b a := by
  intro a b
  simp only [keyLe]
  rcases le_total a.1 b.1 with h | h <;> simp [h]

theorem sortPairs_perm (l : List (String × String)) : (sortPairs l).Perm l :=
  List.mergeSort_perm l keyLe

theorem sortPairs_sorted (l : List (String × String)) :
    (sortPairs l).Pairwise (fun a b => keyLe a b = true) := by
  have := List.sorted_mergeSort keyLe_trans keyLe_total l
  exact this

theorem sortPairs_congr_perm {p1 p2 : List (String × String)}
    (hp : p1.Perm p2) (hnd : (p1.map Prod.fst).Nodup) :
    sortPairs p1 = sortPairs p2 := by
  haveI : IsAntisymm (String × String) (fun a b => a.1 < b.1) :=
    ⟨fun a b h1 h2 => absurd (h1.trans h2) (lt_irrefl _)⟩
  have hperm : (sortPairs p1).Perm (sortPairs p2) :=
    ((sortPairs_perm p1).trans hp).trans (sortPairs_perm p2).symm
  have hnd1 : ((sortPairs p1).map Prod.fst).Nodup :=
    (((sortPairs_perm p1).map Prod.fst).nodup_iff).mpr hnd
  have hnd2 : ((sortPairs p2).map Prod.fst).Nodup :=
    ((hperm.map Prod.fst).nodup_iff).mp hnd1
  have hs1 : (sortPairs p1).Pairwise (fun a b => a.1 < b.1) := by
    have hne : (sortPairs p1).Pairwise (fun a b => a.1 ≠ b.1) :=
      (List.pairwise_map).mp hnd1
    have hle := sortPairs_sorted p1
    exact (hle.and hne).imp (fun h =>
      lt_of_le_of_ne (by simpa [keyLe] using h.1) h.2)
  have hs2 : (sortPairs p2).Pairwise (fun a b => a.1 < b.1) := by
    have hne : (sortPairs p2).Pairwise (fun a b => a.1 ≠ b.1) :=
      (List.pairwise_map).mp hnd2
    have hle := sortPairs_sorted p2
    exact (hle.and hne).imp (fun h =>
      lt_of_le_of_ne (by simpa [keyLe] using h.1) h.2)
  exact List.eq_of_perm_of_sorted hperm hs1 hs2

mutual

/-- Two values are equal as (nested) Python dict contents: identical
atoms, pointwise-equal arrays, and objects whose entry lists are equal
up to key insertion order (same keys, equal values, keys unique as in a
Python dict). -/
inductive MapEq : Json → Json → Prop where
  | null : MapEq .null .null
  | bool (b : Bool) : MapEq (.bool b) (.bool b)
  | int (n : Int) : MapEq (.int n) (.int n)
  | str (s : String) : MapEq (.str s) (.str s)
  | arr {xs ys : List Json} : MapEqList xs ys → MapEq (.arr xs) (.arr ys)
  | obj (l1 l2 l3 : List (String × Json)) :
      (l1.map Prod.fst).Nodup → MapEqFields l1 l2 → l2.Perm l3 →
      MapEq (.obj l1) (.obj l3)

/-- Pointwise `MapEq` on lists. -/
inductive MapEqList : List Json → List Json → Prop where
  | nil : MapEqList [] []
  | cons {x y : Json} {xs ys : List Json} :
      MapEq x y → MapEqList xs ys → MapEqList (x :: xs) (y :: ys)

/-- Pointwise `MapEq` on entry lists: same keys in the same order,
values related. -/
inductive MapEqFields :
    List (String × Json) → List (String × Json) → Prop where
  | nil : MapEqFields [] []
  | cons {k : String} {v w : Json} {l1 l2 : List (String × Json)} :
      MapEq v w → MapEqFields l1 l2 →
      MapEqFields ((k, v) :: l1) ((k, w) :: l2)

end

theorem dumpsFields_eq_map (l : List (String × Json)) :
    dumpsFields l = l.map (fun p => (p.1, dumps p.2)) := by
  induction l with
  | nil => rfl
  | cons p t ih => cases p; simp [dumpsFields, ih]

theorem mapEqFields_keys (l1 l2 : List (String × Json))
    (h : MapEqFields l1 l2) : l1.map Prod.fst = l2.map Prod.fst := by
  match l1, l2, h with
  | [], [], _ => rfl
  | (k, v) :: t1, (_, w) :: t2, .cons _ hf =>
      simpa using mapEqFields_keys t1 t2 hf
termination_by l1.length

mutual

theorem mapEq_dumps (a b : Json) (h : MapEq a b) : dumps a = dumps b := by
  match a, b, h with
  | .null, .null, _ => rfl
  | .bool _, .bool _, .bool _ => rfl
  | .int _, .int _, .int _ => rfl
  | .str _, .str _, .str _ => rfl
  | .arr xs, .arr ys, .arr hl =>
      simp [dumps, mapEqList_dumps xs ys hl]
  | .obj l1, .obj l3, .obj _ l2 _ hnd hf hp =>
      have e1 : dumpsFields l1 = dumpsFields l2 := mapEqFields_dumps l1 l2 hf
      have hperm : (dumpsFields l2).Perm (dumpsFields l3) := by
        rw [dumpsFields_eq_map, dumpsFields_eq_map]
        exact hp.map _
      have hkeys : ((dumpsFields l2).map Prod.fst).Nodup := by
        have hk2 : (dumpsFields l2).map Prod.fst = l2.map Prod.fst := by
          rw [dumpsFields_eq_map, List.map_map]
          rfl
        rw [hk2, ← mapEqFields_keys l1 l2 hf]
        exact hnd
      have hsort : sortPairs (dumpsFields l1) = sortPairs (dumpsFields l3) := by
        rw [e1]
        exact sortPairs_congr_perm hperm hkeys
      simp [dumps, hsort]
termination_by sizeOf a

theorem mapEqList_dumps (xs ys : List Json) (h : MapEqList xs ys) :
    dumpsList xs = dumpsList ys := by
  match xs, ys, h with
  | [], [], _ => rfl
  | x :: xs2, y :: ys2, .cons h1 hl =>
      simp [dumpsList, mapEq_dumps x y h1, mapEqList_dumps xs2 ys2 hl]
termination_by sizeOf xs

theorem mapEqFields_dumps (l1 l2 : List (String × Json))
    (h : MapEqFields l1 l2) : dumpsFields l1 = dumpsFields l2 := by
  match l1, l2, h with
  | [], [], _ => rfl
  | (k, v) :: t1, (_, w) :: t2, .cons h1 hf =>
      simp [dumpsFields, mapEq_dumps v w h1, mapEqFields_dumps t1 t2 hf]
termination_by sizeOf l1

end

theorem mapEqFields_filter (q : String → Bool) :
    ∀ (l1 l2 : List (String × Json)), MapEqFields l1 l2 →
      MapEqFields (l1.filter (fun p => q p.1)) (l2.filter (fun p => q p.1))
  | [], [], _ => .nil
  | (k, v) :: t1, (_, w) :: t2, .cons h1 hf => by
      rw [List.filter_cons, List.filter_cons]
      cases hq : q k with
      | true => exact .cons h1 (mapEqFields_filter q t1 t2 hf)
      | false => exact mapEqFields_filter q t1 t2 hf
termination_by l1 => l1.length

/-- `MapEq` is preserved by removing the `proof` field on both sides. -/
theorem mapEq_removeField {c1 c2 : List (String × Json)} (k : String)
    (h : MapEq (.obj c1) (.obj c2)) :
    MapEq (.obj (removeField c1 k)) (.obj (removeField c2 k)) := by
  cases h with
  | obj _ l2 _ hnd hf hp =>
      refine MapEq.obj _ (removeField l2 k) _ ?_ ?_ ?_
      · have hsub : (removeField c1 k).map Prod.fst |>.Sublist (c1.map Prod.fst) :=
          (List.filter_sublist c1).map Prod.fst
        exact hnd.sublist hsub
      · unfold removeField
        exact mapEqFields_filter (fun s => s != k) c1 l2 hf
      · exact hp.filter _

/-! ## Claim C8 -/

/-- C8: the signing base is the canonical serialization of the
credential with `proof` removed, and that serialization is
deterministic: credentials equal as maps — same field values under a
different key insertion order, at any nesting level — produce
byte-identical canonical output, both for `dumps` itself and for the
signing base of `_sign_credential`. -/
theorem c8_canonicalization_deterministic :
    (∀ a b : Json, MapEq a b → dumps a = dumps b) ∧
    (∀ c1 c2 : List (String × Json), MapEq (.obj c1) (.obj c2) →
      signing_base c1 = signing_base c2) := by
  constructor
  · exact fun a b h => mapEq_dumps a b h
  · intro c1 c2 h
    unfold signing_base
    exact mapEq_dumps _ _ (mapEq_removeField "proof" h)

/-- A two-field credential fragment and the same map written in the
opposite insertion order. -/
def c8a : List (String × Json) :=
  [("issuer", .str "did:web:qwed-ai.com"), ("id", .str "urn:qwed:credential:1")]

/-- The entries of `c8a`, inserted in the opposite order. -/
def c8b : List (String × Json) :=
  [("id", .str "urn:qwed:credential:1"), ("issuer", .str "did:web:qwed-ai.com")]

/-- Witness for C8: the reordered object is `MapEq` to the original and
canonicalizes to the identical byte string. -/
theorem c8_canonicalization_deterministic_witness :
    MapEq (.obj c8a) (.obj c8b) ∧
    dumps (.obj c8a) = dumps (.obj c8b) ∧
    signing_base c8a = signing_base c8b := by
  have hm : MapEq (.obj c8a) (.obj c8b) :=
    MapEq.obj c8a c8a c8b (by decide)
      (.cons (.str _) (.cons (.str _) .nil))
      (List.Perm.swap _ _ _)
  exact ⟨hm, c8_canonicalization_deterministic.1 _ _ hm,
    c8_canonicalization_deterministic.2 c8a c8b hm⟩
